import Mathlib

/-!
Shallow embedding of the Rifados raffle application (src/app.py and
src/liberar_boletos.py).

The persistent store (SQLAlchemy over a relational database) is modelled as
two in-memory lists: one of tickets (`Boleto`) and one of participants
(`Participante`).  Database rows become structures; the auto-incrementing
primary key is modelled by `nextParticipanteId` (max existing id + 1, as a
serial column produces).  Times (`datetime.utcnow()`) are modelled as
integers (minutes); SQL comparison `fecha_apartado < limite` on a NULL
column is false, which the `Option` match reproduces.

Each Flask route body becomes a pure function from the old store (plus the
request data and the current time) to a result code and the new store; the
single `db.session.commit()` at the end of each handler makes the handler
atomic, so the pure function is a faithful model of one committed request.
-/

namespace Rifados

/-- Ticket states: the `estado` column of `boletos`
(`'disponible' | 'apartado' | 'vendido'`, src/app.py line 94). -/
inductive Estado where
  | disponible
  | apartado
  | vendido
  deriving DecidableEq, Repr

/-- The `participantes` table (src/app.py lines 72-86). -/
structure Participante where
  id : Nat
  nombre : String
  email : String
  telefono : String
  deriving DecidableEq, Repr

/-- The `boletos` table (src/app.py lines 88-101): primary key `id`,
unique `numero_boleto`, `estado`, nullable `fecha_apartado` and nullable
foreign key `participante_id`. -/
structure Boleto where
  id : Nat
  numero_boleto : Nat
  estado : Estado
  fecha_apartado : Option Int
  participante_id : Option Nat
  deriving DecidableEq, Repr

/-- The whole database: the two tables. -/
structure Store where
  boletos : List Boleto
  participantes : List Participante
  deriving DecidableEq, Repr

/-- The id a serial primary-key column assigns to the next inserted
participant row: one more than the largest id in the table. -/
def nextParticipanteId (ps : List Participante) : Nat :=
  (ps.map (·.id)).foldr max 0 + 1

/-- Outcome of the POST branch of the `apartar` route: `first_or_404`
misses (404), the status re-check fails (conflict flash + redirect), or the
reservation commits. -/
inductive ApartarResult where
  | notFound
  | conflict
  | ok
  deriving DecidableEq, Repr

/-- The participant lookup-or-create of the `apartar` route
(src/app.py lines 139-146): find the participant by email; if absent,
insert a new row (whose serial id is `nextParticipanteId`).  Returns the
id to attach to the ticket and the new `participantes` table. -/
def resolverParticipante (ps : List Participante)
    (nombre email telefono : String) : Nat × List Participante :=
  match ps.find? (fun p => p.email == email) with
  | some p => (p.id, ps)
  | none =>
    let nid := nextParticipanteId ps
    (nid, ps ++ [{ id := nid, nombre := nombre, email := email,
                   telefono := telefono }])

/-- The POST branch of `apartar` (src/app.py lines 119-162):
`Boleto.query.filter_by(numero_boleto=...).first_or_404()`, the
`estado != 'disponible'` re-check, participant lookup-or-create by email,
then the three-field ticket update, all committed at once.
`numero_boleto` carries a unique constraint, so updating every row matching
the number updates exactly the fetched row. -/
def apartar (s : Store) (numero : Nat) (nombre email telefono : String)
    (now : Int) : ApartarResult × Store :=
  match s.boletos.find? (fun b => b.numero_boleto == numero) with
  | none => (.notFound, s)
  | some b =>
    if b.estado ≠ .disponible then
      (.conflict, s)
    else
      let rp := resolverParticipante s.participantes nombre email telefono
      let boletos := s.boletos.map fun b' =>
        if b'.numero_boleto == numero then
          { b' with estado := .apartado, participante_id := some rp.1,
                    fecha_apartado := some now }
        else b'
      (.ok, { boletos := boletos, participantes := rp.2 })

/-- Outcome of the `confirmar` route: secret mismatch (403),
`get_or_404` miss (404), or the sale is confirmed. -/
inductive ConfirmarResult where
  | forbidden
  | notFound
  | ok
  deriving DecidableEq, Repr

/-- The `confirmar` route (src/app.py lines 209-222): compare the secret,
`Boleto.query.get_or_404(boleto_id)` (lookup by primary key), set
`estado = 'vendido'`, commit.  Nothing else is touched: `fecha_apartado`
and `participante_id` keep their values. -/
def confirmar (secreto : String) (s : Store) (boleto_id : Nat)
    (codigo : String) : ConfirmarResult × Store :=
  if codigo ≠ secreto then
    (.forbidden, s)
  else
    match s.boletos.find? (fun b => b.id == boleto_id) with
    | none => (.notFound, s)
    | some _ =>
      (.ok, { s with boletos := s.boletos.map fun b =>
        if b.id == boleto_id then { b with estado := .vendido } else b })

/-- The `admin` route (src/app.py lines 195-207): compare the secret, then
return the tickets with `estado = 'apartado'`.  The `order_by` is
presentation only and is not modelled.  `Except.error ()` is the 403. -/
def admin (secreto : String) (s : Store) (codigo : String) :
    Except Unit (List Boleto) :=
  if codigo ≠ secreto then .error ()
  else .ok (s.boletos.filter (fun b => b.estado == .apartado))

/-- The bootstrap block (src/app.py lines 178-192): if the `boletos` table
is empty, insert 100 tickets numbered 0..99, all `'disponible'`, in one
commit; otherwise do nothing.  The serial primary key gives row `i` the id
`i + 1`. -/
def bootstrap (s : Store) : Store :=
  if s.boletos.length == 0 then
    { s with boletos := (List.range 100).map fun i =>
        { id := i + 1, numero_boleto := i, estado := .disponible,
          fecha_apartado := none, participante_id := none } }
  else s

/-- `TIEMPO_LIMITE_MINUTOS = 120` (src/liberar_boletos.py line 19). -/
def TIEMPO_LIMITE_MINUTOS : Int := 120

/-- The sweeper's selection predicate (src/liberar_boletos.py lines 45-48):
`estado == 'apartado'` and `fecha_apartado < limite_de_tiempo`.  In SQL a
NULL timestamp compares as unknown, so a NULL date never matches. -/
def boleto_expirado (limite : Int) (b : Boleto) : Bool :=
  b.estado == .apartado &&
    match b.fecha_apartado with
    | some f => decide (f < limite)
    | none => false

/-- One sweeper pass, `liberar_boletos_expirados`
(src/liberar_boletos.py lines 24-67): compute
`limite = now - timeout`, select the expired reserved tickets, reset each
to `('disponible', participante_id = NULL, fecha_apartado = NULL)`, and
commit once.  Returns the count of released tickets and the new store. -/
def liberar_boletos_expirados (timeout now : Int) (s : Store) :
    Nat × Store :=
  let limite := now - timeout
  let liberados := s.boletos.filter (boleto_expirado limite)
  (liberados.length,
   { s with boletos := s.boletos.map fun b =>
      if boleto_expirado limite b then
        { b with estado := .disponible, participante_id := none,
                 fecha_apartado := none }
      else b })

/-! ## Invariants of the data model (spec section 3) -/

/-- Spec section 8, first bullet, stated as on the page: a ticket is
`apartado` exactly when both its reservation timestamp and its participant
reference are non-null. -/
def invC1 (s : Store) : Prop :=
  ∀ b ∈ s.boletos,
    (b.estado = .apartado ↔ b.fecha_apartado.isSome ∧ b.participante_id.isSome)

/-- Spec section 3, second invariant, stated as on the page: the owning
participant reference is non-null exactly when the ticket is `apartado` or
`vendido`. -/
def invC2 (s : Store) : Prop :=
  ∀ b ∈ s.boletos,
    (b.participante_id.isSome ↔ (b.estado = .apartado ∨ b.estado = .vendido))

/-- The direction of `invC1` the code does maintain: every `apartado`
ticket carries a reservation timestamp and a participant reference. -/
def invReservaCompleta (s : Store) : Prop :=
  ∀ b ∈ s.boletos,
    b.estado = .apartado → b.fecha_apartado.isSome ∧ b.participante_id.isSome

/-- The direction of `invC2` the code does maintain: a ticket with a
participant reference is `apartado` or `vendido`. -/
def invDuenoSoloApartadoOVendido (s : Store) : Prop :=
  ∀ b ∈ s.boletos,
    b.participante_id.isSome → b.estado = .apartado ∨ b.estado = .vendido

instance (s : Store) : Decidable (invC1 s) := by
  unfold invC1; infer_instance

instance (s : Store) : Decidable (invC2 s) := by
  unfold invC2; infer_instance

instance (s : Store) : Decidable (invReservaCompleta s) := by
  unfold invReservaCompleta; infer_instance

instance (s : Store) : Decidable (invDuenoSoloApartadoOVendido s) := by
  unfold invDuenoSoloApartadoOVendido; infer_instance

/-! ## Concrete scenario stores (spec section 8, last bullet) -/

/-- The empty database, before the bootstrap block runs. -/
def storeVacia : Store := { boletos := [], participantes := [] }

/-- The database right after bootstrap: 100 `disponible` tickets. -/
def storeInicial : Store := bootstrap storeVacia

/-- Ana reserves ticket number 0 at time 10. -/
def storeReservada : Store :=
  (apartar storeInicial 0 "Ana" "ana@x.com" "555" 10).2

/-- The admin then confirms the sale of ticket id 1 (number 0). -/
def storeConfirmada : Store :=
  (confirmar "admin123" storeReservada 1 "admin123").2

/-- The admin confirms ticket id 1 directly on the fresh database, while
the ticket is still `disponible` and owned by nobody. -/
def storeVendidaSinReserva : Store :=
  (confirmar "admin123" storeInicial 1 "admin123").2

/-- A two-ticket, one-participant store used to instantiate theorems with
hypotheses: ticket 0 is reserved by Ana at time 10, ticket 1 is free. -/
def storeChica : Store :=
  { boletos :=
      [ { id := 1, numero_boleto := 0, estado := .apartado,
          fecha_apartado := some 10, participante_id := some 1 },
        { id := 2, numero_boleto := 1, estado := .disponible,
          fecha_apartado := none, participante_id := none } ],
    participantes :=
      [ { id := 1, nombre := "Ana", email := "ana@x.com",
          telefono := "555" } ] }

/-! ## Generic list helpers -/

/-- An element fetched by index is a member of the list. -/
theorem mem_de_getElem {α : Type} (l : List α) (i : Nat) (a : α)
    (h : l[i]? = some a) : a ∈ l := by
  induction l generalizing i with
  | nil => simp at h
  | cons x xs ih =>
    cases i with
    | zero => simp at h; simp [h]
    | succ k =>
      simp only [List.getElem?_cons_succ] at h
      exact List.mem_cons_of_mem _ (ih k h)

/-- In a list whose key column has no duplicates, two members with equal
keys are the same row. -/
theorem clave_unica_mem {α β : Type} [DecidableEq β] (f : α → β)
    (l : List α) (hnd : (l.map f).Nodup) (a : α) (ha : a ∈ l)
    (c : α) (hc : c ∈ l) (hf : f a = f c) : a = c := by
  induction l with
  | nil => cases ha
  | cons x xs ih =>
    rw [List.map_cons, List.nodup_cons] at hnd
    cases ha with
    | head =>
      cases hc with
      | head => rfl
      | tail _ hc' =>
        exact absurd (hf ▸ List.mem_map_of_mem f hc') hnd.1
    | tail _ ha' =>
      cases hc with
      | head =>
        exact absurd (hf ▸ List.mem_map_of_mem f ha') hnd.1
      | tail _ hc' => exact ih hnd.2 ha' hc'

/-- In a list whose key column has no duplicates, two positions holding
equal keys are the same position. -/
theorem clave_unica_getElem {α β : Type} [DecidableEq β] (f : α → β)
    (l : List α) (hnd : (l.map f).Nodup) (i j : Nat) (a c : α)
    (ha : l[i]? = some a) (hc : l[j]? = some c) (hf : f a = f c) :
    i = j := by
  induction l generalizing i j with
  | nil => simp at ha
  | cons x xs ih =>
    rw [List.map_cons, List.nodup_cons] at hnd
    cases i with
    | zero =>
      cases j with
      | zero => rfl
      | succ k =>
        simp at ha
        simp only [List.getElem?_cons_succ] at hc
        have hmem : f c ∈ xs.map f :=
          List.mem_map_of_mem f (mem_de_getElem xs k c hc)
        exact absurd (show f x ∈ xs.map f by rw [ha, hf]; exact hmem) hnd.1
    | succ k =>
      cases j with
      | zero =>
        simp at hc
        simp only [List.getElem?_cons_succ] at ha
        have hmem : f a ∈ xs.map f :=
          List.mem_map_of_mem f (mem_de_getElem xs k a ha)
        exact absurd (show f x ∈ xs.map f by rw [hc, ← hf]; exact hmem) hnd.1
      | succ m =>
        simp only [List.getElem?_cons_succ] at ha hc
        exact congrArg Nat.succ (ih hnd.2 k m ha hc)

/-- `find?` returns the element when the predicate picks out a unique
member of the list. -/
theorem find_unico {α : Type} (p : α → Bool) (l : List α) (a : α)
    (ha : a ∈ l) (hpa : p a = true)
    (hu : ∀ c ∈ l, p c = true → c = a) :
    l.find? p = some a := by
  induction l with
  | nil => cases ha
  | cons x xs ih =>
    by_cases hx : p x = true
    · rw [List.find?_cons_of_pos _ hx]
      exact congrArg some (hu x (List.mem_cons_self x xs) hx)
    · rw [List.find?_cons_of_neg _ (by simpa using hx)]
      cases ha with
      | head => exact absurd hpa hx
      | tail _ ha' =>
        exact ih ha' fun c hc hpc => hu c (List.mem_cons_of_mem _ hc) hpc

/-- Mapping a function that only rewrites rows matched by `p` acts
pointwise on positions. -/
theorem getElem_map_si {α : Type} (p : α → Bool) (f : α → α) (l : List α)
    (i : Nat) (a : α) (h : l[i]? = some a) :
    (l.map fun x => if p x then f x else x)[i]? =
      some (if p a then f a else a) := by
  rw [List.getElem?_map, h]
  rfl

/-! ## Characterizations of the operations -/

/-- When a participant with the email exists, `resolverParticipante`
returns its id and leaves the table alone. -/
theorem resolverParticipante_encontrado (ps : List Participante)
    (nombre email telefono : String) (p : Participante)
    (h : ps.find? (fun p => p.email == email) = some p) :
    resolverParticipante ps nombre email telefono = (p.id, ps) := by
  unfold resolverParticipante
  rw [h]

/-- When no participant has the email, `resolverParticipante` appends a
fresh row. -/
theorem resolverParticipante_nuevo (ps : List Participante)
    (nombre email telefono : String)
    (h : ps.find? (fun p => p.email == email) = none) :
    resolverParticipante ps nombre email telefono =
      (nextParticipanteId ps,
       ps ++ [{ id := nextParticipanteId ps, nombre := nombre,
                email := email, telefono := telefono }]) := by
  unfold resolverParticipante
  rw [h]

/-- The id `resolverParticipante` returns belongs to a participant of the
resulting table whose email is the submitted one. -/
theorem resolverParticipante_email (ps : List Participante)
    (nombre email telefono : String) :
    ∃ p ∈ (resolverParticipante ps nombre email telefono).2,
      p.email = email ∧
      p.id = (resolverParticipante ps nombre email telefono).1 := by
  unfold resolverParticipante
  cases h : ps.find? (fun p => p.email == email) with
  | none =>
    refine ⟨_, List.mem_append_right _ (List.mem_singleton_self _), rfl, rfl⟩
  | some p =>
    have hp := List.find?_some h
    exact ⟨p, List.mem_of_find?_eq_some h, by simpa using hp, rfl⟩

/-- `apartar` when no ticket carries the number: 404, store untouched. -/
theorem apartar_sin_boleto (s : Store) (numero : Nat)
    (nombre email telefono : String) (now : Int)
    (h : s.boletos.find? (fun b => b.numero_boleto == numero) = none) :
    apartar s numero nombre email telefono now = (.notFound, s) := by
  unfold apartar
  rw [h]

/-- `apartar` when the fetched ticket is no longer `disponible`: conflict,
store untouched. -/
theorem apartar_conflicto (s : Store) (numero : Nat)
    (nombre email telefono : String) (now : Int) (b : Boleto)
    (h : s.boletos.find? (fun b => b.numero_boleto == numero) = some b)
    (hd : b.estado ≠ .disponible) :
    apartar s numero nombre email telefono now = (.conflict, s) := by
  unfold apartar
  rw [h]
  simp [hd]

/-- `apartar` when the fetched ticket is `disponible`: the committed
update. -/
theorem apartar_exito (s : Store) (numero : Nat)
    (nombre email telefono : String) (now : Int) (b : Boleto)
    (h : s.boletos.find? (fun b => b.numero_boleto == numero) = some b)
    (hd : b.estado = .disponible) :
    apartar s numero nombre email telefono now =
      (.ok,
       { boletos := s.boletos.map fun b' =>
           if b'.numero_boleto == numero then
             { b' with
                 estado := .apartado,
                 participante_id := some (resolverParticipante s.participantes nombre email telefono).1,
                 fecha_apartado := some now }
           else b',
         participantes :=
           (resolverParticipante s.participantes nombre email telefono).2 }) := by
  unfold apartar
  rw [h]
  simp [hd]

/-- `confirmar` with a wrong code: 403, store untouched. -/
theorem confirmar_prohibido (secreto : String) (s : Store) (boleto_id : Nat)
    (codigo : String) (h : codigo ≠ secreto) :
    confirmar secreto s boleto_id codigo = (.forbidden, s) := by
  unfold confirmar
  simp [h]

/-- `confirmar` with the right code but no such ticket id: 404, store
untouched. -/
theorem confirmar_sin_boleto (secreto : String) (s : Store)
    (boleto_id : Nat) (codigo : String) (h : codigo = secreto)
    (hf : s.boletos.find? (fun b => b.id == boleto_id) = none) :
    confirmar secreto s boleto_id codigo = (.notFound, s) := by
  unfold confirmar
  simp [h, hf]

/-- `confirmar` with the right code on an existing ticket id: the row is
set to `vendido`, everything else kept. -/
theorem confirmar_exito (secreto : String) (s : Store) (boleto_id : Nat)
    (codigo : String) (h : codigo = secreto) (b : Boleto)
    (hf : s.boletos.find? (fun b => b.id == boleto_id) = some b) :
    confirmar secreto s boleto_id codigo =
      (.ok, { s with boletos := s.boletos.map fun b' =>
        if b'.id == boleto_id then { b' with estado := .vendido }
        else b' }) := by
  unfold confirmar
  simp [h, hf]

/-- The sweeper's selection predicate unfolded into the spec's wording:
`apartado` with a timestamp strictly older than the limit. -/
theorem boleto_expirado_iff (limite : Int) (b : Boleto) :
    boleto_expirado limite b = true ↔
      (b.estado = .apartado ∧
        ∃ f, b.fecha_apartado = some f ∧ f < limite) := by
  obtain ⟨i, n, e, fa, p⟩ := b
  unfold boleto_expirado
  cases fa with
  | none => cases e <;> simp
  | some f => cases e <;> simp

/-! ## Preservation of the two invariant directions the code maintains -/

/-- Reserving keeps every `apartado` ticket fully populated. -/
theorem invReservaCompleta_apartar (s : Store) (h : invReservaCompleta s)
    (numero : Nat) (nombre email telefono : String) (now : Int) :
    invReservaCompleta (apartar s numero nombre email telefono now).2 := by
  cases hf : s.boletos.find? (fun b => b.numero_boleto == numero) with
  | none =>
    rw [apartar_sin_boleto s numero nombre email telefono now hf]
    exact h
  | some b =>
    by_cases hd : b.estado = .disponible
    · rw [apartar_exito s numero nombre email telefono now b hf hd]
      intro b' hb' hap
      rw [List.mem_map] at hb'
      obtain ⟨a, ha, rfl⟩ := hb'
      by_cases hn : (a.numero_boleto == numero) = true
      · simp [hn]
      · rw [if_neg hn] at hap ⊢
        exact h a ha hap
    · rw [apartar_conflicto s numero nombre email telefono now b hf hd]
      exact h

/-- Confirming keeps every `apartado` ticket fully populated (the
confirmed ticket stops being `apartado`; the rest are untouched). -/
theorem invReservaCompleta_confirmar (s : Store) (h : invReservaCompleta s)
    (secreto : String) (boleto_id : Nat) (codigo : String) :
    invReservaCompleta (confirmar secreto s boleto_id codigo).2 := by
  by_cases hc : codigo = secreto
  · cases hf : s.boletos.find? (fun b => b.id == boleto_id) with
    | none =>
      rw [confirmar_sin_boleto secreto s boleto_id codigo hc hf]
      exact h
    | some b =>
      rw [confirmar_exito secreto s boleto_id codigo hc b hf]
      intro b' hb' hap
      rw [List.mem_map] at hb'
      obtain ⟨a, ha, rfl⟩ := hb'
      by_cases hn : (a.id == boleto_id) = true
      · rw [if_pos hn] at hap
        cases hap
      · rw [if_neg hn] at hap ⊢
        exact h a ha hap
  · rw [confirmar_prohibido secreto s boleto_id codigo hc]
    exact h

/-- The sweeper keeps every `apartado` ticket fully populated (released
tickets become `disponible`; the rest are untouched). -/
theorem invReservaCompleta_liberar (s : Store) (h : invReservaCompleta s)
    (timeout now : Int) :
    invReservaCompleta (liberar_boletos_expirados timeout now s).2 := by
  unfold liberar_boletos_expirados
  intro b' hb' hap
  rw [List.mem_map] at hb'
  obtain ⟨a, ha, rfl⟩ := hb'
  by_cases he : boleto_expirado (now - timeout) a = true
  · rw [if_pos he] at hap
    cases hap
  · rw [if_neg he] at hap ⊢
    exact h a ha hap

/-- Bootstrap keeps every `apartado` ticket fully populated (the created
tickets are all `disponible`). -/
theorem invReservaCompleta_bootstrap (s : Store) (h : invReservaCompleta s) :
    invReservaCompleta (bootstrap s) := by
  unfold bootstrap
  by_cases hl : (s.boletos.length == 0) = true
  · rw [if_pos hl]
    intro b' hb' hap
    rw [List.mem_map] at hb'
    obtain ⟨i, _, rfl⟩ := hb'
    cases hap
  · rw [if_neg hl]
    exact h

/-- Reserving keeps participant references confined to `apartado` or
`vendido` tickets. -/
theorem invDueno_apartar (s : Store) (h : invDuenoSoloApartadoOVendido s)
    (numero : Nat) (nombre email telefono : String) (now : Int) :
    invDuenoSoloApartadoOVendido
      (apartar s numero nombre email telefono now).2 := by
  cases hf : s.boletos.find? (fun b => b.numero_boleto == numero) with
  | none =>
    rw [apartar_sin_boleto s numero nombre email telefono now hf]
    exact h
  | some b =>
    by_cases hd : b.estado = .disponible
    · rw [apartar_exito s numero nombre email telefono now b hf hd]
      intro b' hb' hp
      rw [List.mem_map] at hb'
      obtain ⟨a, ha, rfl⟩ := hb'
      by_cases hn : (a.numero_boleto == numero) = true
      · rw [if_pos hn]
        exact Or.inl rfl
      · rw [if_neg hn] at hp ⊢
        exact h a ha hp
    · rw [apartar_conflicto s numero nombre email telefono now b hf hd]
      exact h

/-- Confirming keeps participant references confined to `apartado` or
`vendido` tickets (the confirmed ticket becomes `vendido`). -/
theorem invDueno_confirmar (s : Store) (h : invDuenoSoloApartadoOVendido s)
    (secreto : String) (boleto_id : Nat) (codigo : String) :
    invDuenoSoloApartadoOVendido (confirmar secreto s boleto_id codigo).2 := by
  by_cases hc : codigo = secreto
  · cases hf : s.boletos.find? (fun b => b.id == boleto_id) with
    | none =>
      rw [confirmar_sin_boleto secreto s boleto_id codigo hc hf]
      exact h
    | some b =>
      rw [confirmar_exito secreto s boleto_id codigo hc b hf]
      intro b' hb' hp
      rw [List.mem_map] at hb'
      obtain ⟨a, ha, rfl⟩ := hb'
      by_cases hn : (a.id == boleto_id) = true
      · rw [if_pos hn]
        exact Or.inr rfl
      · rw [if_neg hn] at hp ⊢
        exact h a ha hp
  · rw [confirmar_prohibido secreto s boleto_id codigo hc]
    exact h

/-- The sweeper keeps participant references confined to `apartado` or
`vendido` tickets (released tickets lose their reference). -/
theorem invDueno_liberar (s : Store) (h : invDuenoSoloApartadoOVendido s)
    (timeout now : Int) :
    invDuenoSoloApartadoOVendido
      (liberar_boletos_expirados timeout now s).2 := by
  unfold liberar_boletos_expirados
  intro b' hb' hp
  rw [List.mem_map] at hb'
  obtain ⟨a, ha, rfl⟩ := hb'
  by_cases he : boleto_expirado (now - timeout) a = true
  · rw [if_pos he] at hp
    cases hp
  · rw [if_neg he] at hp ⊢
    exact h a ha hp

/-- Bootstrap keeps participant references confined to `apartado` or
`vendido` tickets (the created tickets have none). -/
theorem invDueno_bootstrap (s : Store) (h : invDuenoSoloApartadoOVendido s) :
    invDuenoSoloApartadoOVendido (bootstrap s) := by
  unfold bootstrap
  by_cases hl : (s.boletos.length == 0) = true
  · rw [if_pos hl]
    intro b' hb' hp
    rw [List.mem_map] at hb'
    obtain ⟨i, _, rfl⟩ := hb'
    cases hp
  · rw [if_neg hl]
    exact h

/-- Executable check of `invC1`, for evaluating it on concrete stores. -/
def invC1b (s : Store) : Bool :=
  s.boletos.all fun b =>
    (b.estado == .apartado) ==
      (b.fecha_apartado.isSome && b.participante_id.isSome)

/-- Executable check of `invC2`, for evaluating it on concrete stores. -/
def invC2b (s : Store) : Bool :=
  s.boletos.all fun b =>
    b.participante_id.isSome ==
      (b.estado == .apartado || b.estado == .vendido)

/-- `invC1b` computes `invC1`. -/
theorem invC1b_correcta (s : Store) : invC1b s = true ↔ invC1 s := by
  unfold invC1b invC1
  rw [List.all_eq_true]
  refine forall_congr' fun b => forall_congr' fun _ => ?_
  rw [beq_iff_eq, Bool.eq_iff_iff, beq_iff_eq, Bool.and_eq_true]

/-- `invC2b` computes `invC2`. -/
theorem invC2b_correcta (s : Store) : invC2b s = true ↔ invC2 s := by
  unfold invC2b invC2
  rw [List.all_eq_true]
  refine forall_congr' fun b => forall_congr' fun _ => ?_
  rw [beq_iff_eq, Bool.eq_iff_iff, Bool.or_eq_true, beq_iff_eq, beq_iff_eq]

/-! ## Claims -/

/-- C1 counterexample: run Bootstrap, then Reserve ticket number 0, then
Confirm ticket id 1.  The resulting reachable store has ticket 0 in state
`vendido` with its reservation timestamp and participant reference still
non-null (`confirmar` clears neither), so the claimed equivalence
"status = apartado iff timestamp non-null and participant non-null" is
false after this Confirm. -/
theorem confirmar_conserva_fecha_contraejemplo :
    storeConfirmada.boletos[0]? =
      some { id := 1, numero_boleto := 0, estado := .vendido,
             fecha_apartado := some 10, participante_id := some 1 } ∧
    invC1b storeConfirmada = false := by
  decide

/-- C1 (amended): after every operation every `apartado` ticket has a
non-null reservation timestamp and a non-null participant reference (the
forward half of the claimed equivalence); the backward half fails because
Confirm clears neither field of the ticket it sells. -/
theorem invariante_apartado_campos_presentes (s : Store)
    (h : invReservaCompleta s) :
    (∀ numero nombre email telefono now,
        invReservaCompleta (apartar s numero nombre email telefono now).2) ∧
    (∀ secreto boleto_id codigo,
        invReservaCompleta (confirmar secreto s boleto_id codigo).2) ∧
    (∀ timeout now,
        invReservaCompleta (liberar_boletos_expirados timeout now s).2) ∧
    invReservaCompleta (bootstrap s) :=
  ⟨fun numero nombre email telefono now =>
     invReservaCompleta_apartar s h numero nombre email telefono now,
   fun secreto boleto_id codigo =>
     invReservaCompleta_confirmar s h secreto boleto_id codigo,
   fun timeout now => invReservaCompleta_liberar s h timeout now,
   invReservaCompleta_bootstrap s h⟩

/-- C1 witness: the amended invariant, instantiated on the two-ticket
store after one more reservation. -/
theorem invariante_apartado_campos_presentes_witness :
    invReservaCompleta (apartar storeChica 1 "Bob" "bob@x.com" "111" 20).2 :=
  (invariante_apartado_campos_presentes storeChica (by decide)).1
    1 "Bob" "bob@x.com" "111" 20

/-- C2 counterexample: run Bootstrap, then Confirm ticket id 1 directly
(the route accepts any status).  Ticket 0 becomes `vendido` with a null
participant reference, so the claimed equivalence "participant non-null
iff status reserved or sold" is false after this Confirm. -/
theorem confirmar_disponible_contraejemplo :
    storeVendidaSinReserva.boletos[0]? =
      some { id := 1, numero_boleto := 0, estado := .vendido,
             fecha_apartado := none, participante_id := none } ∧
    invC2b storeVendidaSinReserva = false := by
  decide

/-- C2 (amended): after every operation every ticket with a non-null
participant reference is `apartado` or `vendido` (the forward half of the
claimed equivalence); the backward half fails because Confirm applied to a
`disponible` ticket yields `vendido` with a null participant reference. -/
theorem invariante_dueno_solo_apartado_o_vendido (s : Store)
    (h : invDuenoSoloApartadoOVendido s) :
    (∀ numero nombre email telefono now,
        invDuenoSoloApartadoOVendido
          (apartar s numero nombre email telefono now).2) ∧
    (∀ secreto boleto_id codigo,
        invDuenoSoloApartadoOVendido
          (confirmar secreto s boleto_id codigo).2) ∧
    (∀ timeout now,
        invDuenoSoloApartadoOVendido
          (liberar_boletos_expirados timeout now s).2) ∧
    invDuenoSoloApartadoOVendido (bootstrap s) :=
  ⟨fun numero nombre email telefono now =>
     invDueno_apartar s h numero nombre email telefono now,
   fun secreto boleto_id codigo =>
     invDueno_confirmar s h secreto boleto_id codigo,
   fun timeout now => invDueno_liberar s h timeout now,
   invDueno_bootstrap s h⟩

/-- C2 witness: the amended invariant, instantiated on the two-ticket
store after confirming the reserved ticket. -/
theorem invariante_dueno_solo_apartado_o_vendido_witness :
    invDuenoSoloApartadoOVendido
      (confirmar "admin123" storeChica 1 "admin123").2 :=
  (invariante_dueno_solo_apartado_o_vendido storeChica (by decide)).2.1
    "admin123" 1 "admin123"

/-- C3: one sweeper pass with timeout `timeout` at time `now` releases
exactly the tickets that are `apartado` with a timestamp strictly older
than `now - timeout` — each becomes `disponible` with null timestamp and
null participant reference — and leaves every other ticket and the whole
participant table unchanged. -/
theorem liberar_exactamente_expirados (timeout now : Int) (s : Store)
    (i : Nat) (b : Boleto) (hb : s.boletos[i]? = some b) :
    (liberar_boletos_expirados timeout now s).2.participantes =
        s.participantes ∧
    (liberar_boletos_expirados timeout now s).2.boletos.length =
        s.boletos.length ∧
    ((b.estado = .apartado ∧
        ∃ f, b.fecha_apartado = some f ∧ f < now - timeout) →
      (liberar_boletos_expirados timeout now s).2.boletos[i]? =
        some { b with estado := .disponible, participante_id := none,
                      fecha_apartado := none }) ∧
    (¬(b.estado = .apartado ∧
        ∃ f, b.fecha_apartado = some f ∧ f < now - timeout) →
      (liberar_boletos_expirados timeout now s).2.boletos[i]? = some b) := by
  refine ⟨rfl, by simp [liberar_boletos_expirados], ?_, ?_⟩
  · intro hcond
    have he : boleto_expirado (now - timeout) b = true :=
      (boleto_expirado_iff (now - timeout) b).mpr hcond
    show (s.boletos.map _)[i]? = _
    rw [getElem_map_si (boleto_expirado (now - timeout)) _ s.boletos i b hb,
      if_pos he]
  · intro hcond
    have he : ¬ boleto_expirado (now - timeout) b = true := fun hx =>
      hcond ((boleto_expirado_iff (now - timeout) b).mp hx)
    show (s.boletos.map _)[i]? = _
    rw [getElem_map_si (boleto_expirado (now - timeout)) _ s.boletos i b hb,
      if_neg he]

/-- C3 witness: on the two-ticket store at time 200 with the default
120-minute timeout, the ticket reserved at time 10 is released. -/
theorem liberar_exactamente_expirados_witness :
    (liberar_boletos_expirados TIEMPO_LIMITE_MINUTOS 200
        storeChica).2.boletos[0]? =
      some { id := 1, numero_boleto := 0, estado := .disponible,
             fecha_apartado := none, participante_id := none } :=
  (liberar_exactamente_expirados TIEMPO_LIMITE_MINUTOS 200 storeChica 0
      { id := 1, numero_boleto := 0, estado := .apartado,
        fecha_apartado := some 10, participante_id := some 1 }
      (by decide)).2.2.1 ⟨rfl, 10, rfl, by decide⟩

/-- C4: Reserve yields `notFound` exactly when no ticket carries the
number, `conflict` exactly when the ticket exists but is not `disponible`
at commit time, and succeeds exactly when it exists and is `disponible`.
The `Nodup` hypothesis is the unique constraint on `numero_boleto`. -/
theorem apartar_clasificacion (s : Store) (numero : Nat)
    (nombre email telefono : String) (now : Int)
    (hnd : (s.boletos.map (fun b => b.numero_boleto)).Nodup) :
    ((apartar s numero nombre email telefono now).1 = .notFound ↔
        ∀ b ∈ s.boletos, b.numero_boleto ≠ numero) ∧
    ((apartar s numero nombre email telefono now).1 = .conflict ↔
        ∃ b ∈ s.boletos, b.numero_boleto = numero ∧
          b.estado ≠ .disponible) ∧
    ((apartar s numero nombre email telefono now).1 = .ok ↔
        ∃ b ∈ s.boletos, b.numero_boleto = numero ∧
          b.estado = .disponible) := by
  cases hf : s.boletos.find? (fun b => b.numero_boleto == numero) with
  | none =>
    have hnone : ∀ b ∈ s.boletos, b.numero_boleto ≠ numero := by
      intro b hbm
      simpa using List.find?_eq_none.mp hf b hbm
    rw [apartar_sin_boleto s numero nombre email telefono now hf]
    refine ⟨iff_of_true rfl hnone, ?_, ?_⟩
    · constructor
      · intro h
        cases h
      · rintro ⟨b, hbm, hbn, _⟩
        exact absurd hbn (hnone b hbm)
    · constructor
      · intro h
        cases h
      · rintro ⟨b, hbm, hbn, _⟩
        exact absurd hbn (hnone b hbm)
  | some b =>
    have hbm : b ∈ s.boletos := List.mem_of_find?_eq_some hf
    have hbn : b.numero_boleto = numero := by simpa using List.find?_some hf
    by_cases hd : b.estado = .disponible
    · rw [apartar_exito s numero nombre email telefono now b hf hd]
      refine ⟨?_, ?_, iff_of_true rfl ⟨b, hbm, hbn, hd⟩⟩
      · constructor
        · intro h
          cases h
        · intro hall
          exact absurd hbn (hall b hbm)
      · constructor
        · intro h
          cases h
        · rintro ⟨c, hcm, hcn, hcd⟩
          have hcb : c = b :=
            clave_unica_mem (fun x => x.numero_boleto) s.boletos hnd c hcm
              b hbm (by simp [hcn, hbn])
          rw [hcb] at hcd
          exact absurd hd hcd
    · rw [apartar_conflicto s numero nombre email telefono now b hf hd]
      refine ⟨?_, iff_of_true rfl ⟨b, hbm, hbn, hd⟩, ?_⟩
      · constructor
        · intro h
          cases h
        · intro hall
          exact absurd hbn (hall b hbm)
      · constructor
        · intro h
          cases h
        · rintro ⟨c, hcm, hcn, hcd⟩
          have hcb : c = b :=
            clave_unica_mem (fun x => x.numero_boleto) s.boletos hnd c hcm
              b hbm (by simp [hcn, hbn])
          rw [hcb] at hcd
          exact absurd hcd hd

/-- C4 witness: on the two-ticket store, reserving the already-reserved
ticket 0 is a conflict. -/
theorem apartar_clasificacion_witness :
    (apartar storeChica 0 "Bob" "bob@x.com" "111" 20).1 = .conflict :=
  ((apartar_clasificacion storeChica 0 "Bob" "bob@x.com" "111" 20
      (by decide)).2.1).mpr
    ⟨{ id := 1, numero_boleto := 0, estado := .apartado,
       fecha_apartado := some 10, participante_id := some 1 },
     by decide, rfl, by decide⟩

/-- C5: a successful Reserve on the `disponible` ticket at position `i`
commits exactly these mutations: that ticket becomes `apartado` with the
resolved participant's id and timestamp `now`, every other position is
untouched, and the participant table is unchanged when the email already
exists and gains exactly the one new row otherwise. -/
theorem apartar_efectos_exito (s : Store) (numero i : Nat) (b : Boleto)
    (nombre email telefono : String) (now : Int)
    (hnd : (s.boletos.map (fun b => b.numero_boleto)).Nodup)
    (hb : s.boletos[i]? = some b) (hn : b.numero_boleto = numero)
    (hd : b.estado = .disponible) :
    (apartar s numero nombre email telefono now).1 = .ok ∧
    (∃ p ∈ (apartar s numero nombre email telefono now).2.participantes,
        p.email = email ∧
        (apartar s numero nombre email telefono now).2.boletos[i]? =
          some { b with estado := .apartado, participante_id := some p.id,
                        fecha_apartado := some now }) ∧
    (∀ j, j ≠ i →
        (apartar s numero nombre email telefono now).2.boletos[j]? =
          s.boletos[j]?) ∧
    ((∃ p ∈ s.participantes, p.email = email) →
        (apartar s numero nombre email telefono now).2.participantes =
          s.participantes) ∧
    ((∀ p ∈ s.participantes, p.email ≠ email) →
        (apartar s numero nombre email telefono now).2.participantes =
          s.participantes ++
            [{ id := nextParticipanteId s.participantes, nombre := nombre,
               email := email, telefono := telefono }]) := by
  have hbm : b ∈ s.boletos := mem_de_getElem s.boletos i b hb
  have hfind : s.boletos.find? (fun c => c.numero_boleto == numero) =
      some b := by
    refine find_unico _ _ b hbm (by simpa using hn) ?_
    intro c hcm hpc
    simp only [beq_iff_eq] at hpc
    exact clave_unica_mem (fun x => x.numero_boleto) s.boletos hnd c hcm
      b hbm (by simp [hpc, hn])
  rw [apartar_exito s numero nombre email telefono now b hfind hd]
  refine ⟨rfl, ?_, ?_, ?_, ?_⟩
  · obtain ⟨p, hpm, hpe, hpid⟩ :=
      resolverParticipante_email s.participantes nombre email telefono
    refine ⟨p, hpm, hpe, ?_⟩
    show (s.boletos.map _)[i]? = _
    rw [getElem_map_si (fun c => c.numero_boleto == numero) _ s.boletos
        i b hb, if_pos (by simpa using hn), hpid]
  · intro j hj
    show (s.boletos.map _)[j]? = s.boletos[j]?
    cases hcj : s.boletos[j]? with
    | none =>
      rw [List.getElem?_map, hcj]
      rfl
    | some c =>
      have hcneg : ¬ (c.numero_boleto == numero) = true := by
        intro hcn
        simp only [beq_iff_eq] at hcn
        exact hj (clave_unica_getElem (fun x => x.numero_boleto) s.boletos
          hnd j i c b hcj hb (by simp [hcn, hn]))
      rw [getElem_map_si (fun c => c.numero_boleto == numero) _ s.boletos
        j c hcj, if_neg hcneg]
  · rintro ⟨p, hpm, hpe⟩
    have hsome : (s.participantes.find? (fun q => q.email == email)).isSome :=
      List.find?_isSome.mpr ⟨p, hpm, by simpa using hpe⟩
    obtain ⟨p', hp'⟩ := Option.isSome_iff_exists.mp hsome
    show (resolverParticipante s.participantes nombre email telefono).2 =
      s.participantes
    rw [resolverParticipante_encontrado s.participantes nombre email
      telefono p' hp']
  · intro hno
    have hnonef : s.participantes.find? (fun q => q.email == email) =
        none :=
      List.find?_eq_none.mpr fun q hq => by simpa using hno q hq
    show (resolverParticipante s.participantes nombre email telefono).2 = _
    rw [resolverParticipante_nuevo s.participantes nombre email telefono
      hnonef]

/-- C5 witness: reserving the free ticket 1 of the two-ticket store
succeeds. -/
theorem apartar_efectos_exito_witness :
    (apartar storeChica 1 "Bob" "bob@x.com" "111" 20).1 = .ok :=
  (apartar_efectos_exito storeChica 1 1
      { id := 2, numero_boleto := 1, estado := .disponible,
        fecha_apartado := none, participante_id := none }
      "Bob" "bob@x.com" "111" 20 (by decide) (by decide) rfl rfl).1

/-- C6: Confirm with the right code on the `apartado` ticket at position
`i` (with the requested id) succeeds, sets exactly that ticket to
`vendido` while keeping its id, number, timestamp and participant
reference, leaves every other position untouched, and leaves the
participant table unchanged.  The `Nodup` hypothesis is the primary-key
constraint on `id`. -/
theorem confirmar_preserva_campos (secreto codigo : String) (s : Store)
    (boleto_id i : Nat) (b : Boleto)
    (hid : (s.boletos.map (fun b => b.id)).Nodup)
    (hcod : codigo = secreto)
    (hb : s.boletos[i]? = some b) (hbid : b.id = boleto_id)
    (_hres : b.estado = .apartado) :
    (confirmar secreto s boleto_id codigo).1 = .ok ∧
    (confirmar secreto s boleto_id codigo).2.boletos[i]? =
      some { id := b.id, numero_boleto := b.numero_boleto,
             estado := .vendido, fecha_apartado := b.fecha_apartado,
             participante_id := b.participante_id } ∧
    (∀ j, j ≠ i →
        (confirmar secreto s boleto_id codigo).2.boletos[j]? =
          s.boletos[j]?) ∧
    (confirmar secreto s boleto_id codigo).2.participantes =
      s.participantes := by
  have hbm : b ∈ s.boletos := mem_de_getElem s.boletos i b hb
  have hfind : s.boletos.find? (fun c => c.id == boleto_id) = some b := by
    refine find_unico _ _ b hbm (by simpa using hbid) ?_
    intro c hcm hpc
    simp only [beq_iff_eq] at hpc
    exact clave_unica_mem (fun x => x.id) s.boletos hid c hcm b hbm
      (by simp [hpc, hbid])
  rw [confirmar_exito secreto s boleto_id codigo hcod b hfind]
  refine ⟨rfl, ?_, ?_, rfl⟩
  · show (s.boletos.map _)[i]? = _
    rw [getElem_map_si (fun c => c.id == boleto_id) _ s.boletos i b hb,
      if_pos (by simpa using hbid)]
  · intro j hj
    show (s.boletos.map _)[j]? = s.boletos[j]?
    cases hcj : s.boletos[j]? with
    | none =>
      rw [List.getElem?_map, hcj]
      rfl
    | some c =>
      have hcneg : ¬ (c.id == boleto_id) = true := by
        intro hcn
        simp only [beq_iff_eq] at hcn
        exact hj (clave_unica_getElem (fun x => x.id) s.boletos hid j i
          c b hcj hb (by simp [hcn, hbid]))
      rw [getElem_map_si (fun c => c.id == boleto_id) _ s.boletos j c hcj,
        if_neg hcneg]

/-- C6 witness: confirming ticket id 1 (reserved by Ana) on the
two-ticket store succeeds. -/
theorem confirmar_preserva_campos_witness :
    (confirmar "admin123" storeChica 1 "admin123").1 = .ok :=
  (confirmar_preserva_campos "admin123" "admin123" storeChica 1 0
      { id := 1, numero_boleto := 0, estado := .apartado,
        fecha_apartado := some 10, participante_id := some 1 }
      (by decide) rfl (by decide) rfl rfl).1

/-- C7: Bootstrap on an empty store creates exactly 100 tickets numbered
0..99, each `disponible` with null timestamp and null participant
reference, and touches nothing else; on a non-empty store it changes
nothing at all. -/
theorem bootstrap_cien_boletos (s : Store) :
    (s.boletos = [] →
      (bootstrap s).boletos.length = 100 ∧
      (∀ i, i < 100 →
        (bootstrap s).boletos[i]? =
          some { id := i + 1, numero_boleto := i, estado := .disponible,
                 fecha_apartado := none, participante_id := none }) ∧
      (bootstrap s).participantes = s.participantes) ∧
    (s.boletos ≠ [] → bootstrap s = s) := by
  constructor
  · intro hnil
    have hz : (s.boletos.length == 0) = true := by simp [hnil]
    unfold bootstrap
    rw [if_pos hz]
    refine ⟨by simp, ?_, rfl⟩
    intro i hi
    rw [List.getElem?_map, List.getElem?_range hi]
    rfl
  · intro hne
    unfold bootstrap
    rw [if_neg (by simpa [List.length_eq_zero] using hne)]

/-- C7 witness: bootstrapping the empty store yields 100 tickets;
bootstrapping again afterwards is the identity. -/
theorem bootstrap_cien_boletos_witness :
    (bootstrap storeVacia).boletos.length = 100 ∧
    bootstrap storeInicial = storeInicial :=
  ⟨((bootstrap_cien_boletos storeVacia).1 rfl).1,
   (bootstrap_cien_boletos storeInicial).2 (by decide)⟩

/-- C8: a successful reservation whose email already belongs to a
participant attaches the ticket to that participant's id and leaves the
participant table — names and phones included — unchanged; a new
participant row is appended only when no participant has the email.  The
`Nodup` hypothesis on emails is the unique constraint on `email`. -/
theorem apartar_participante_por_email (s : Store) (numero i : Nat)
    (b : Boleto) (nombre email telefono : String) (now : Int)
    (hnd : (s.boletos.map (fun b => b.numero_boleto)).Nodup)
    (hem : (s.participantes.map (fun p => p.email)).Nodup)
    (hb : s.boletos[i]? = some b) (hn : b.numero_boleto = numero)
    (hd : b.estado = .disponible) :
    (∀ p ∈ s.participantes, p.email = email →
        (apartar s numero nombre email telefono now).2.participantes =
          s.participantes ∧
        (apartar s numero nombre email telefono now).2.boletos[i]? =
          some { b with estado := .apartado, participante_id := some p.id,
                        fecha_apartado := some now }) ∧
    ((∀ p ∈ s.participantes, p.email ≠ email) →
        (apartar s numero nombre email telefono now).2.participantes =
          s.participantes ++
            [{ id := nextParticipanteId s.participantes, nombre := nombre,
               email := email, telefono := telefono }]) := by
  have hbm : b ∈ s.boletos := mem_de_getElem s.boletos i b hb
  have hfind : s.boletos.find? (fun c => c.numero_boleto == numero) =
      some b := by
    refine find_unico _ _ b hbm (by simpa using hn) ?_
    intro c hcm hpc
    simp only [beq_iff_eq] at hpc
    exact clave_unica_mem (fun x => x.numero_boleto) s.boletos hnd c hcm
      b hbm (by simp [hpc, hn])
  rw [apartar_exito s numero nombre email telefono now b hfind hd]
  constructor
  · intro p hpm hpe
    have hpfind : s.participantes.find? (fun q => q.email == email) =
        some p := by
      refine find_unico _ _ p hpm (by simpa using hpe) ?_
      intro q hqm hpq
      simp only [beq_iff_eq] at hpq
      exact clave_unica_mem (fun x => x.email) s.participantes hem q hqm
        p hpm (by simp [hpq, hpe])
    constructor
    · show (resolverParticipante s.participantes nombre email telefono).2 =
        s.participantes
      rw [resolverParticipante_encontrado s.participantes nombre email
        telefono p hpfind]
    · have hrp :
          (resolverParticipante s.participantes nombre email telefono).1 =
            p.id := by
        rw [resolverParticipante_encontrado s.participantes nombre email
          telefono p hpfind]
      show (s.boletos.map _)[i]? = _
      rw [getElem_map_si (fun c => c.numero_boleto == numero) _ s.boletos
        i b hb, if_pos (by simpa using hn), hrp]
  · intro hno
    have hnonef : s.participantes.find? (fun q => q.email == email) =
        none :=
      List.find?_eq_none.mpr fun q hq => by simpa using hno q hq
    show (resolverParticipante s.participantes nombre email telefono).2 = _
    rw [resolverParticipante_nuevo s.participantes nombre email telefono
      hnonef]

/-- C8 witness: reserving the free ticket 1 with Ana's email (but a
different name and phone) leaves the participant table unchanged. -/
theorem apartar_participante_por_email_witness :
    (apartar storeChica 1 "Otra" "ana@x.com" "999" 20).2.participantes =
      storeChica.participantes :=
  ((apartar_participante_por_email storeChica 1 1
      { id := 2, numero_boleto := 1, estado := .disponible,
        fecha_apartado := none, participante_id := none }
      "Otra" "ana@x.com" "999" 20 (by decide) (by decide) (by decide)
      rfl rfl).1
    { id := 1, nombre := "Ana", email := "ana@x.com", telefono := "555" }
    (by decide) rfl).1

/-- C9: both admin-gated routes fail with 403 exactly when the supplied
code differs from the configured secret, and on a mismatch `confirmar`
leaves the store untouched (`admin` never writes). -/
theorem codigo_secreto_rechazo (secreto codigo : String) (s : Store)
    (boleto_id : Nat) :
    (admin secreto s codigo = Except.error () ↔ codigo ≠ secreto) ∧
    ((confirmar secreto s boleto_id codigo).1 = .forbidden ↔
        codigo ≠ secreto) ∧
    (codigo ≠ secreto → (confirmar secreto s boleto_id codigo).2 = s) := by
  by_cases hc : codigo = secreto
  · refine ⟨?_, ?_, fun h => absurd hc h⟩
    · unfold admin
      rw [if_neg (show ¬codigo ≠ secreto from fun h => h hc)]
      constructor
      · intro h
        cases h
      · intro h
        exact absurd hc h
    · cases hf : s.boletos.find? (fun b => b.id == boleto_id) with
      | none =>
        rw [confirmar_sin_boleto secreto s boleto_id codigo hc hf]
        constructor
        · intro h
          cases h
        · intro h
          exact absurd hc h
      | some b =>
        rw [confirmar_exito secreto s boleto_id codigo hc b hf]
        constructor
        · intro h
          cases h
        · intro h
          exact absurd hc h
  · refine ⟨?_, ?_, fun _ => ?_⟩
    · unfold admin
      rw [if_pos hc]
      exact iff_of_true rfl hc
    · rw [confirmar_prohibido secreto s boleto_id codigo hc]
      exact iff_of_true rfl hc
    · rw [confirmar_prohibido secreto s boleto_id codigo hc]

/-- C9 witness: a wrong code against the two-ticket store is rejected and
changes nothing. -/
theorem codigo_secreto_rechazo_witness :
    (confirmar "admin123" storeChica 1 "intruso").1 = .forbidden ∧
    (confirmar "admin123" storeChica 1 "intruso").2 = storeChica :=
  ⟨(codigo_secreto_rechazo "admin123" "intruso" storeChica 1).2.1.mpr
      (by decide),
   (codigo_secreto_rechazo "admin123" "intruso" storeChica 1).2.2
      (by decide)⟩

/-- C10: whenever Reserve fails — not found or conflict — the whole store
is returned unchanged: no participant row is created and no ticket field
is modified. -/
theorem apartar_fallo_sin_cambios (s : Store) (numero : Nat)
    (nombre email telefono : String) (now : Int) :
    ((apartar s numero nombre email telefono now).1 = .notFound ∨
     (apartar s numero nombre email telefono now).1 = .conflict) →
    (apartar s numero nombre email telefono now).2 = s := by
  intro hr
  cases hf : s.boletos.find? (fun b => b.numero_boleto == numero) with
  | none =>
    rw [apartar_sin_boleto s numero nombre email telefono now hf]
  | some b =>
    by_cases hd : b.estado = .disponible
    · rw [apartar_exito s numero nombre email telefono now b hf hd] at hr
      rcases hr with h | h
      · cases h
      · cases h
    · rw [apartar_conflicto s numero nombre email telefono now b hf hd]

/-- C10 witness: the conflicting reservation of ticket 0 leaves the
two-ticket store exactly as it was. -/
theorem apartar_fallo_sin_cambios_witness :
    (apartar storeChica 0 "Bob" "bob@x.com" "111" 20).2 = storeChica :=
  apartar_fallo_sin_cambios storeChica 0 "Bob" "bob@x.com" "111" 20
    (Or.inr (by decide))

end Rifados
